import Mathlib

/-!
Verification development for the report-retrieval wrapper library.

The repository contains two independent implementations of a
create/poll/fetch report-retrieval protocol:

* `AmazonOrderRetrieval.retrieve_orders` (src/amazon_lib.py), built on MWS,
  whose durable state is an `AmazonReportLogEntry` held by an
  `AmazonReportLogger` (one entry per (day, marketplace) key);
* `SpTabReportRetrieval.retrieve_report` (src/amazon_sp_report_lib.py),
  built on sp-api, whose durable state is one tracker record per
  (report_type_name, marketplace, start_ds, end_ds) key, with the
  `DictTracker` reference implementation storing the fields
  ReportId / Errors / Status / DocumentId.

Both are embedded below as pure step functions: the durable record for the
job key in question is passed in and the updated record is returned,
together with the returned status (or the propagated exception) and the
list of remote API calls attempted during the invocation.  The remote
service is modelled as an environment of oracle responses, one per
possible remote operation of the call; `Except` failure values stand for
the exceptions the corresponding Python calls raise
(`MWSError`/generic exceptions for amazon_lib, `SellingApiException` for
the sp-api library).  The rate limiters (`SpTabReportRetrieval.__wait`,
`SP_Orders_Retrieval.__make_request`) are embedded separately as step
functions over their counter state, with time as exact rationals.
-/

deriving instance DecidableEq for Except

namespace AmazonLib

/-- Mirror of `AmazonOrderRetrievalStatus` (src/amazon_lib.py lines 20-55). -/
inductive AmazonOrderRetrievalStatus
  | REQUEST_FAILED
  | CREATED_REQUEST
  | REQUEST_PROCESSING
  | SAVED_ORDERS
  | ORDERS_ALREADY_SAVED
  deriving DecidableEq, Repr

/-- Mirror of `AmazonReportLogEntry` (src/amazon_lib.py lines 89-174).
`processing_status` and `saving_status` hold the status name strings the
code writes (for example "REQUEST_FAILED", "_DONE_", "NOT_SAVED"). -/
structure AmazonReportLogEntry where
  submitted_date : String
  request_id : Option String
  report_id : Option String
  day : String
  marketplace : String
  processing_status : String
  saving_status : String
  last_err_type : Option String
  deriving DecidableEq, Repr

/-- Response of the CREATE step (RequestReport followed by
GetReportRequestList, src/amazon_lib.py lines 347-350).  The fields are the
ones `retrieve_orders` reads from `request_info`. -/
structure CreateInfo where
  submittedDate : String
  reportRequestId : String
  reportProcessingStatus : String
  generatedReportId : String
  deriving DecidableEq, Repr

/-- Response of the POLL step (GetReportRequestList,
src/amazon_lib.py lines 387-392). -/
structure PollInfo where
  reportProcessingStatus : String
  generatedReportId : String
  deriving DecidableEq, Repr

/-- Oracle responses of the remote service for one `retrieve_orders`
invocation.  An `Except.error s` stands for the Python call raising an
exception whose `str(type(e))` is `s`.  `fetchRes` abstracts
GetReport + parsing + `__build_df`: `.ok n` means the fetched artifact
yields `n` structured records (`n = 0` is the `df is None` case, that is
no `Message` key or zero shipped order items); an error in fetching or
building raises inside the same `try` block.  `saveRes` is the outcome of
the single `save_orders(df)` call. -/
structure RemoteEnv where
  nowPst : String
  createRes : Except String CreateInfo
  pollRes : Except String PollInfo
  fetchRes : Except String Nat
  saveRes : Except String Unit
  deriving DecidableEq, Repr

/-- The remote API operations `retrieve_orders` can attempt. -/
inductive RemoteCall
  | createReport
  | pollReport
  | fetchReport
  deriving DecidableEq, Repr

/-- Everything observable from one `retrieve_orders` invocation:
the returned status or propagated exception, the last log entry written
back through `logger.log_info` (`none` when the call wrote nothing, in
which case the previous entry stands), the remote calls attempted, and
the record batches committed through `save_orders` (each element is the
size of one committed batch; the code commits at most one whole batch per
call). -/
structure RetrieveOutcome where
  result : Except String AmazonOrderRetrievalStatus
  entry : Option AmazonReportLogEntry
  calls : List RemoteCall
  committed : List Nat
  deriving DecidableEq, Repr

/-- The CREATE branch of `retrieve_orders` (src/amazon_lib.py lines
343-376): taken when no log entry exists or the last entry has
processing status "REQUEST_FAILED".  On failure the diagnostic entry
(no request or report id, processing "REQUEST_FAILED", saving
"NOT_SAVED", the error type) is logged before the exception propagates. -/
def createBranch (day marketplace : String) (env : RemoteEnv) : RetrieveOutcome :=
  match env.createRes with
  | .error ex =>
      { result := .error ex
        entry := some
          { submitted_date := env.nowPst
            request_id := none
            report_id := none
            day := day
            marketplace := marketplace
            processing_status := "REQUEST_FAILED"
            saving_status := "NOT_SAVED"
            last_err_type := some ex }
        calls := [.createReport]
        committed := [] }
  | .ok info =>
      { result := .ok .CREATED_REQUEST
        entry := some
          { submitted_date := info.submittedDate
            request_id := some info.reportRequestId
            report_id :=
              if info.reportProcessingStatus = "_DONE_" then
                some info.generatedReportId
              else none
            day := day
            marketplace := marketplace
            processing_status := info.reportProcessingStatus
            saving_status := "NOT_SAVED"
            last_err_type := none }
        calls := [.createReport]
        committed := [] }

/-- The FETCH branch of `retrieve_orders` (src/amazon_lib.py lines
399-417): GetReport, build the DataFrame, save it.  Zero records leave
`df = None` and mark "EMPTY_SAVE"; a raised exception marks "SAVE_FAILED"
and records the error type; the `finally` block logs the entry on every
exit path.  `prevCalls` carries the POLL call when the fetch follows a
poll that just turned "_DONE_". -/
def fetchBranch (e : AmazonReportLogEntry) (env : RemoteEnv)
    (prevCalls : List RemoteCall) : RetrieveOutcome :=
  match env.fetchRes with
  | .error ex =>
      { result := .error ex
        entry := some { e with saving_status := "SAVE_FAILED", last_err_type := some ex }
        calls := prevCalls ++ [.fetchReport]
        committed := [] }
  | .ok n =>
      if n = 0 then
        { result := .ok .SAVED_ORDERS
          entry := some { e with saving_status := "EMPTY_SAVE" }
          calls := prevCalls ++ [.fetchReport]
          committed := [] }
      else
        match env.saveRes with
        | .ok _ =>
            { result := .ok .SAVED_ORDERS
              entry := some { e with saving_status := "SAVED" }
              calls := prevCalls ++ [.fetchReport]
              committed := [n] }
        | .error ex =>
            { result := .error ex
              entry := some { e with saving_status := "SAVE_FAILED", last_err_type := some ex }
              calls := prevCalls ++ [.fetchReport]
              committed := [] }

/-- Shallow embedding of `AmazonOrderRetrieval.retrieve_orders`
(src/amazon_lib.py lines 294-417).  `entry0` is what
`logger.get_info(day, marketplace)` returns for this key. -/
def retrieve_orders (entry0 : Option AmazonReportLogEntry)
    (day marketplace : String) (env : RemoteEnv) : RetrieveOutcome :=
  match entry0 with
  | none => createBranch day marketplace env
  | some le =>
      if le.processing_status = "REQUEST_FAILED" then
        createBranch day marketplace env
      else if le.saving_status = "SAVED" then
        { result := .ok .ORDERS_ALREADY_SAVED
          entry := some le
          calls := []
          committed := [] }
      else
        -- lines 381-382: deepcopy, clear the previous error
        let e1 := { le with last_err_type := (none : Option String) }
        if e1.processing_status ≠ "_DONE_" then
          -- POLL (lines 384-397), with `finally` logging on every exit
          match env.pollRes with
          | .error ex =>
              { result := .error ex
                entry := some { e1 with last_err_type := some ex }
                calls := [.pollReport]
                committed := [] }
          | .ok info =>
              let e2 := { e1 with processing_status := info.reportProcessingStatus }
              if info.reportProcessingStatus ≠ "_DONE_" then
                { result := .ok .REQUEST_PROCESSING
                  entry := some e2
                  calls := [.pollReport]
                  committed := [] }
              else
                fetchBranch { e2 with report_id := some info.generatedReportId }
                  env [.pollReport]
        else
          fetchBranch e1 env []

end AmazonLib

namespace SpReportLib

/-- The key set of `TAB_REPORT_TYPES` (src/amazon_sp_report_lib.py lines
16-88).  Only the keys matter to the control flow modelled here (the
values are the vendor reportType codes passed verbatim to the remote
CREATE call). -/
def TAB_REPORT_TYPE_NAMES : List String := [
    "Inventory Report",
    "All Listings Report",
    "Active Listings Report",
    "Inactive Listings Report",
    "Open Listings Report",
    "Open Listings Report Lite",
    "Open Listings Report Liter",
    "Canceled Listings Report",
    "Listing Quality and Suppressed Listing Report",
    "Pan-European Eligibility: FBA ASINs",
    "Pan-European Eligibility: Self-fulfilled ASINs",
    "Global Expansion Opportunities Report",
    "Referral Fee Preview Report",
    "Unshipped Orders Report",
    "Requested or Scheduled Flat File Order Report (Invoicing)",
    "Requested or Scheduled Flat File Order Report (Shipping)",
    "Requested or Scheduled Flat File Order Report (Tax)",
    "Flat File Orders By Last Update Report",
    "Flat File Orders By Order Date Report",
    "Flat File Archived Orders Report",
    "Flat File Pending Orders Report",
    "Flat File Returns Report by Return Date",
    "Flat File Return Attributes Report by Return Date",
    "Flat File Feedback Report",
    "Flat File Settlement Report",
    "Flat File V2 Settlement Report",
    "FBA Amazon Fulfilled Shipments Report",
    "FBA Amazon Fulfilled Shipments Report (Invoicing)",
    "FBA Amazon Fulfilled Shipments Report (Tax)",
    "Flat File All Orders Report by Last Update",
    "Flat File All Orders Report by Order Date",
    "FBA Customer Shipment Sales Report",
    "FBA Promotions Report",
    "FBA Customer Taxes",
    "Remote Fulfillment Eligibility",
    "FBA Amazon Fulfilled Inventory Report",
    "FBA Multi-Country Inventory Report",
    "Inventory Ledger Report - Summary View",
    "Inventory Ledger Report - Detailed View",
    "FBA Daily Inventory History Report",
    "FBA Monthly Inventory History Report",
    "FBA Received Inventory Report",
    "FBA Reserved Inventory Report",
    "FBA Inventory Event Detail Report",
    "FBA Inventory Adjustments Report",
    "FBA Inventory Health Report",
    "FBA Manage Inventory",
    "FBA Manage Inventory - Archived",
    "Restock Inventory Report",
    "FBA Inbound Performance Report",
    "FBA Stranded Inventory Report",
    "FBA Bulk Fix Stranded Inventory Report",
    "FBA Inventory Age Report",
    "FBA Manage Excess Inventory Report",
    "FBA Storage Fees Report",
    "Get Report Exchange Data",
    "FBA Fee Preview Report",
    "FBA Reimbursements Report",
    "FBA Long Term Storage Fee Charges Report",
    "FBA Returns Report",
    "FBA Replacements Report",
    "FBA Recommended Removal Report",
    "FBA Removal Order Detail Report",
    "FBA Removal Shipment Detail Report",
    "Small & Light Inventory Report",
    "Sales Tax Report",
    "Amazon VAT Transactions Report",
    "On Demand GST Merchant Tax Report B2B",
    "On Demand GST Merchant Tax Report B2C",
    "EasyShip Picked Up Report",
    "EasyShip Waiting for Pick Up Report"]

/-- `NA_MARKETPLACE_COUNTRY_CODESET` (src/amazon_sp_constants.py). -/
def NA_MARKETPLACE_COUNTRY_CODESET : List String := ["US", "CA", "BR", "MX"]

/-- `EUR_MARKETPLACE_COUNTRY_CODESET` (src/amazon_sp_constants.py). -/
def EUR_MARKETPLACE_COUNTRY_CODESET : List String :=
  ["ES", "GB", "FR", "NL", "DE", "IT", "SE", "TR", "AE", "IN", "UK"]

/-- `SpTabReportRetrieval.__WAITING_STATUS` (src/amazon_sp_report_lib.py
line 399): tracker statuses that mean the report is still awaited.  The
tracker status is an `Option String` because `DictTracker` initializes
`Status` to `None`. -/
def WAITING_STATUS : List (Option String) := [none, some "IN_QUEUE", some "IN_PROGRESS"]

/-- Mirror of `SpReportTrackingStatus` (src/amazon_sp_report_lib.py lines
146-174). -/
inductive SpReportTrackingStatus
  | REPORT_CREATED
  | DOCUMENTED_RETURNED
  | UPDATED_STATUS
  | DONE_NOTHING
  | EXCEPTION_OCCURRED
  deriving DecidableEq, Repr

/-- The tracker record for one (report_type_name, marketplace, start_ds,
end_ds) key, as stored by the reference `DictTracker`
(src/amazon_sp_report_lib.py lines 758-810): fields ReportId, Errors,
Status, DocumentId. -/
structure SpRecord where
  reportId : Option String
  errors : Option String
  status : Option String
  documentId : Option String
  deriving DecidableEq, Repr

/-- The exception kinds `retrieve_report` and its helpers can raise. -/
inductive SpExn
  | valueError (msg : String)
  | runtimeError (msg : String)
  | sellingApi (msg : String)
  deriving DecidableEq, Repr

/-- The second component of the pair `retrieve_report` returns:
`None`, a status value read back (possibly `None`) on the
UPDATED_STATUS / EXCEPTION_OCCURRED paths, or the document output of
`output_report_doc`. -/
inductive SpOut
  | nothing
  | statusVal (s : Option String)
  | document (d : String)
  deriving DecidableEq, Repr

/-- Payload fields read from a successful `create_report` response
(src/amazon_sp_report_lib.py lines 619-625). -/
structure SpCreateRes where
  reportId : String
  errors : Option String
  deriving DecidableEq, Repr

/-- Payload fields read from a successful `get_report` response
(src/amazon_sp_report_lib.py lines 662-671); `reportDocumentId` is read
only when the processing status is "DONE". -/
structure SpPollRes where
  processingStatus : String
  reportDocumentId : String
  errors : Option String
  deriving DecidableEq, Repr

/-- Oracle responses of the sp-api for one `retrieve_report` invocation.
An `Except.error msg` stands for the call raising a
`SellingApiException` whose recorded text is `msg` (the code formats the
exception into a string before storing it; the formatting is abstracted
into `msg`).  `docRes` abstracts `get_report_document` plus the CSV
parse and `output_report_doc`; its `.ok` payload is the returned
document value. -/
structure SpEnv where
  createRes : Except String SpCreateRes
  pollRes : Except String SpPollRes
  docRes : Except String String
  deriving DecidableEq, Repr

/-- The remote sp-api operations `retrieve_report` can attempt. -/
inductive SpCall
  | createReport
  | getReport
  | getReportDoc
  deriving DecidableEq, Repr

/-- Everything observable from one `retrieve_report` invocation: the
returned (status, out) pair or the propagated exception, the tracker
record for the key after the call, and the remote calls attempted. -/
structure SpOutcome where
  result : Except SpExn (SpReportTrackingStatus × SpOut)
  record : Option SpRecord
  calls : List SpCall
  deriving DecidableEq, Repr

/-- `SpTabReportRetrieval.__create_report` (src/amazon_sp_report_lib.py
lines 602-632).  On a `SellingApiException` the tracker is initialized
with no report id and the exception text, and the method returns
EXCEPTION_OCCURRED instead of raising. -/
def create_report (report_type_name marketplace : String)
    (rec0 : Option SpRecord) (env : SpEnv) : SpOutcome :=
  if report_type_name ∉ TAB_REPORT_TYPE_NAMES then
    { result := .error (.valueError "Invalid Tab report type name")
      record := rec0
      calls := [] }
  else if marketplace ∉ NA_MARKETPLACE_COUNTRY_CODESET ∧
      marketplace ∉ EUR_MARKETPLACE_COUNTRY_CODESET then
    { result := .error (.valueError "Invalid marketplace")
      record := rec0
      calls := [] }
  else
    match env.createRes with
    | .ok res =>
        { result := .ok (.REPORT_CREATED, .nothing)
          record := some
            { reportId := some res.reportId
              errors := res.errors
              status := none
              documentId := none }
          calls := [.createReport] }
    | .error msg =>
        { result := .ok (.EXCEPTION_OCCURRED, .nothing)
          record := some
            { reportId := none
              errors := some msg
              status := none
              documentId := none }
          calls := [.createReport] }

/-- `SpTabReportRetrieval.__update_report_status` (src/amazon_sp_report_lib.py
lines 649-686).  The report id read from the tracker must be truthy
(`if not report_id` also rejects an empty string); a
`SellingApiException` anywhere in the try block makes the handler
re-write the status currently held by the tracker together with the
exception text and return EXCEPTION_OCCURRED. -/
def update_report_status (rec : SpRecord) (env : SpEnv) : SpOutcome :=
  match rec.reportId with
  | none =>
      { result := .error (.runtimeError
          "Cannot retrieve status or document without a report ID")
        record := some rec
        calls := [] }
  | some rid =>
      if rid = "" then
        { result := .error (.runtimeError
            "Cannot retrieve status or document without a report ID")
          record := some rec
          calls := [] }
      else
        match env.pollRes with
        | .ok res =>
            let rec1 := { rec with status := some res.processingStatus,
                                   errors := res.errors }
            if res.processingStatus = "DONE" then
              let rec2 := { rec1 with documentId := some res.reportDocumentId }
              match env.docRes with
              | .ok doc =>
                  { result := .ok (.DOCUMENTED_RETURNED, .document doc)
                    record := some rec2
                    calls := [.getReport, .getReportDoc] }
              | .error msg =>
                  -- the handler reads the status just written ("DONE")
                  -- and re-writes it with the exception text
                  { result := .ok (.EXCEPTION_OCCURRED, .statusVal rec2.status)
                    record := some { rec2 with errors := some msg }
                    calls := [.getReport, .getReportDoc] }
            else
              { result := .ok (.UPDATED_STATUS, .statusVal (some res.processingStatus))
                record := some rec1
                calls := [.getReport] }
        | .error msg =>
            -- get_report itself raised: the tracker still holds the old
            -- status, which the handler preserves while recording the error
            { result := .ok (.EXCEPTION_OCCURRED, .statusVal rec.status)
              record := some { rec with errors := some msg }
              calls := [.getReport] }

/-- The report type name resolution at the top of `retrieve_report`
(src/amazon_sp_report_lib.py lines 532-536): the per-call argument wins,
then the name given at construction; both absent raises RuntimeError. -/
def resolve_report_type_name (perCall stored : Option String) : Except SpExn String :=
  match perCall with
  | some n => .ok n
  | none =>
      match stored with
      | some n => .ok n
      | none => .error (.runtimeError
          "Must specify report type name in either object construction or via report_type_name")

/-- The argument validation of `SpTabReportRetrieval.__init__`
(src/amazon_sp_report_lib.py lines 407-414) as far as the report type
name is concerned: `report_type_name not in TAB_REPORT_TYPES` raises
ValueError, and `None` (also the default of the parameter) is never a
key of that dictionary.  On success the stored type name is returned. -/
def sp_tab_report_retrieval_init (report_type_name : Option String) : Except SpExn String :=
  match report_type_name with
  | none => .error (.valueError "Invalid Tab report type name None")
  | some n =>
      if n ∈ TAB_REPORT_TYPE_NAMES then .ok n
      else .error (.valueError "Invalid Tab report type name")

/-- Shallow embedding of `SpTabReportRetrieval.retrieve_report`
(src/amazon_sp_report_lib.py lines 469-566).  `stored` is the report
type name given at construction, `perCall` the one given to this call;
`rec0` is the tracker record for the key (its presence is exactly
`is_report_created`).  Credentials handling (lines 538-544) is elided:
it only selects which credential dictionary backs the `Reports` object
and touches neither the tracker nor the remote protocol. -/
def retrieve_report (stored perCall : Option String) (marketplace : String)
    (rec0 : Option SpRecord) (env : SpEnv) : SpOutcome :=
  match resolve_report_type_name perCall stored with
  | .error e => { result := .error e, record := rec0, calls := [] }
  | .ok rtn =>
      match rec0 with
      | none => create_report rtn marketplace rec0 env
      | some rec =>
          if rec.status ∈ WAITING_STATUS then
            update_report_status rec env
          else
            match rec.documentId with
            | some _ =>
                -- report already done: get the document again from the API
                -- through __get_document_df (lines 557-563, 635-646)
                match env.docRes with
                | .ok doc =>
                    { result := .ok (.DOCUMENTED_RETURNED, .document doc)
                      record := rec0
                      calls := [.getReportDoc] }
                | .error msg =>
                    { result := .error (.sellingApi msg)
                      record := rec0
                      calls := [.getReportDoc] }
            | none =>
                -- FATAL / CANCELLED: do nothing (line 564)
                { result := .ok (.DONE_NOTHING, .nothing)
                  record := rec0
                  calls := [] }

end SpReportLib

namespace RateLimiter

/-- Per-class rate-limiter state of `SpTabReportRetrieval` in bulk mode
(src/amazon_sp_report_lib.py lines 454-460): the remaining burst counter
(`__report_create_left` and friends, initialized to 15) and the time of
the last request of the class (`__t_last_report_create` and friends,
initialized to -1).  Times are exact rationals standing for the values
of `time.time()`. -/
structure RateState where
  left : Int
  lastTime : Rat
  deriving DecidableEq, Repr

/-- The state every class starts from when `bulk_mode()` is called
(src/amazon_sp_report_lib.py lines 454-460). -/
def bulkInitState : RateState := { left := 15, lastTime := -1 }

/-- One bulk-mode pass of `SpTabReportRetrieval.__wait` for one request
class (src/amazon_sp_report_lib.py lines 693-737; the three branches are
this code with class-specific constants).  `curr` is the `time.time()`
value sampled at entry.  Returns the total time slept and the new class
state; the remote request is issued right after, at `curr + slept`.
Note the code stores `curr` — the pre-sleep timestamp — into
`lastTime`, and pays the cooldown inside the call that decrements the
counter to zero. -/
def waitStep (minSpacing cooldown : Rat) (burstCapacity : Int)
    (st : RateState) (curr : Rat) : Rat × RateState :=
  let sleep1 : Rat :=
    if st.lastTime > 0 then
      (if curr - st.lastTime < minSpacing then minSpacing - (curr - st.lastTime) else 0)
    else 0
  let left1 := st.left - 1
  if left1 = 0 then
    (sleep1 + cooldown, { left := burstCapacity, lastTime := curr })
  else
    (sleep1, { left := left1, lastTime := curr })

/-- Mirror of `SpTabReportRetrieval.__RequestType`
(src/amazon_sp_report_lib.py lines 402-405). -/
inductive SpRequestType
  | CREATE_REPORT
  | GET_REPORT
  | GET_REPORT_DOC
  deriving DecidableEq, Repr

/-- The three independent class states kept by a bulk-mode
`SpTabReportRetrieval`. -/
structure SpBulkState where
  reportCreate : RateState
  getReport : RateState
  getReportDoc : RateState
  deriving DecidableEq, Repr

/-- `SpTabReportRetrieval.__wait` in bulk mode, dispatching on the
request type with the constants hard-coded in the source: CREATE-REPORT
waits 60 s spacing with a 60 s cooldown, GET-REPORT 0.5 s spacing with a
60 s cooldown, GET-REPORT-DOCUMENT 60 s spacing with a 60 s cooldown,
all with bursts of 15 (src/amazon_sp_report_lib.py lines 689-737). -/
def spWait (rt : SpRequestType) (st : SpBulkState) (curr : Rat) : Rat × SpBulkState :=
  match rt with
  | .CREATE_REPORT =>
      let p := waitStep 60 60 15 st.reportCreate curr
      (p.1, { st with reportCreate := p.2 })
  | .GET_REPORT =>
      let p := waitStep (1/2) 60 15 st.getReport curr
      (p.1, { st with getReport := p.2 })
  | .GET_REPORT_DOC =>
      let p := waitStep 60 60 15 st.getReportDoc curr
      (p.1, { st with getReportDoc := p.2 })

/-- The rate-limiting algorithm exactly as the specification states it,
transcribed from its three numbered steps: (1) if this is not the first
request of the class (the code represents that by a positive recorded
time) and the elapsed time since `lastRequestTime` is below `minSpacing`,
block for the remaining difference; (2) record `lastRequestTime = now`
and decrement `remainingInBurst`; (3) if `remainingInBurst` reached 0,
block for the cooldown and reset `remainingInBurst = burstCapacity`.
`now` is the single time sample the step works with. -/
def claimedLimiterStep (minSpacing cooldown : Rat) (burstCapacity : Int)
    (st : RateState) (now : Rat) : Rat × RateState :=
  let block1 : Rat :=
    if st.lastTime > 0 ∧ now - st.lastTime < minSpacing then
      minSpacing - (now - st.lastTime)
    else 0
  let remaining := st.left - 1
  if remaining = 0 then
    (block1 + cooldown, { left := burstCapacity, lastTime := now })
  else
    (block1, { left := remaining, lastTime := now })

/-- The rate-limiting portion of `SP_Orders_Retrieval.__make_request`
(src/amazon_sp_lib.py lines 180-195): if the request count has reached
the burst size, sleep the burst pause and reset the counter; then
increment the counter and sleep the fixed request pause — before every
request, with no elapsed-time measurement.  Returns the total time slept
and the new counter. -/
def makeRequestStep (burstSize : Nat) (pause burstPause : Rat)
    (reqCount : Nat) : Rat × Nat :=
  let p0 : Rat × Nat := if reqCount = burstSize then (burstPause, 0) else (0, reqCount)
  (p0.1 + pause, p0.2 + 1)

/-- A maximally eager caller of `waitStep`: each call arrives exactly
when the previous request was issued (the first at time `now0`).
Returns the successive request issue times. -/
def greedyWaitRun (minSpacing cooldown : Rat) (burstCapacity : Int) :
    RateState → Rat → Nat → List Rat
  | _, _, 0 => []
  | st, now0, n + 1 =>
      let p := waitStep minSpacing cooldown burstCapacity st now0
      (now0 + p.1) :: greedyWaitRun minSpacing cooldown burstCapacity p.2 (now0 + p.1) n

end RateLimiter

open AmazonLib SpReportLib RateLimiter

/-- The tier of a saving status in the order asserted by the
specification: "NOT_SAVED" and "SAVE_FAILED" at the bottom (they may
interchange on retry), "EMPTY_SAVE" and "SAVED" at the top.  A
non-decreasing sequence in that order never moves from tier 1 back to
tier 0. -/
def claimedSavingTier (s : String) : Nat :=
  if s = "EMPTY_SAVE" ∨ s = "SAVED" then 1 else 0

/-- Helper: once an entry holds processing status "_DONE_" without saving
status "SAVED", a retrieve call goes straight to the FETCH branch — the
only remote call attempted is GetReport, whatever the environment
does. -/
theorem retrieve_orders_done_goes_to_fetch
    (e : AmazonReportLogEntry) (day mkt : String) (env : RemoteEnv)
    (hp : e.processing_status = "_DONE_") (hs : e.saving_status ≠ "SAVED") :
    (AmazonLib.retrieve_orders (some e) day mkt env).calls = [RemoteCall.fetchReport] := by
  cases h2 : env.fetchRes with
  | error ex => simp [AmazonLib.retrieve_orders, fetchBranch, hp, hs, h2]
  | ok n =>
      by_cases hn : n = 0
      · simp [AmazonLib.retrieve_orders, fetchBranch, hp, hs, h2, hn]
      · cases h3 : env.saveRes <;>
          simp [AmazonLib.retrieve_orders, fetchBranch, hp, hs, h2, hn, h3]

/-- Helper: whenever the FETCH branch propagates an exception, the entry
it logs through the `finally` block carries that exception type. -/
theorem fetchBranch_error_records
    (e : AmazonReportLogEntry) (env : RemoteEnv) (pc : List RemoteCall) (ex : String)
    (h : (fetchBranch e env pc).result = .error ex) :
    ∃ e1, (fetchBranch e env pc).entry = some e1 ∧ e1.last_err_type = some ex := by
  cases hf : env.fetchRes with
  | error e0 =>
      simp [fetchBranch, hf] at h ⊢
      simp [h]
  | ok n =>
      by_cases hn : n = 0
      · simp [fetchBranch, hf, hn] at h
      · cases hsv : env.saveRes with
        | ok u => simp [fetchBranch, hf, hn, hsv] at h
        | error e0 =>
            simp [fetchBranch, hf, hn, hsv] at h ⊢
            simp [h]

/-- C1 counterexample: the claim asserts that after a retrieval whose
outcome was recorded as saved (for `SpTabReportRetrieval`, a retrieved
document recorded in the tracker), every subsequent call of the retrieve
entry point issues zero remote API calls.  For a tracker record with
status "DONE" and a recorded document id, `retrieve_report` takes the
document branch and issues one GET_REPORT_DOCUMENT remote call — the
document is downloaded again on every call — so its call list is
nonempty. -/
theorem c1_counterexample :
    (SpReportLib.retrieve_report (some "FBA Manage Inventory") none "US"
        (some { reportId := some "r1", errors := none,
                status := some "DONE", documentId := some "d1" })
        { createRes := .error "x", pollRes := .error "x", docRes := .ok "payload" }).result =
      .ok (.DOCUMENTED_RETURNED, .document "payload") ∧
    (SpReportLib.retrieve_report (some "FBA Manage Inventory") none "US"
        (some { reportId := some "r1", errors := none,
                status := some "DONE", documentId := some "d1" })
        { createRes := .error "x", pollRes := .error "x", docRes := .ok "payload" }).calls =
      [SpCall.getReportDoc] ∧
    ([SpCall.getReportDoc] : List SpCall) ≠ [] := by
  refine ⟨rfl, rfl, by simp⟩

/-- C1 (amended): for `AmazonOrderRetrieval.retrieve_orders`, once the log
entry holds saving status "SAVED" (with processing status "_DONE_", the
state every SAVED-producing call leaves behind), every subsequent call
returns ORDERS_ALREADY_SAVED, leaves the entry unchanged and issues zero
remote calls.  For `SpTabReportRetrieval.retrieve_report`, once the
tracker holds status "DONE" and a document id, every subsequent call
returns DOCUMENTED_RETURNED with the freshly downloaded document and
leaves the record unchanged, but it issues one GET_REPORT_DOCUMENT
remote call per invocation rather than zero. -/
theorem c1_amended_idempotence :
    (∀ (e : AmazonReportLogEntry) (day mkt : String) (env : RemoteEnv),
        e.saving_status = "SAVED" → e.processing_status = "_DONE_" →
        AmazonLib.retrieve_orders (some e) day mkt env =
          { result := .ok .ORDERS_ALREADY_SAVED, entry := some e,
            calls := [], committed := [] }) ∧
    (∀ (rtn mkt : String) (rec : SpRecord) (env : SpEnv) (d : String),
        rec.status = some "DONE" → rec.documentId = some d →
        (SpReportLib.retrieve_report (some rtn) none mkt (some rec) env).calls =
          [SpCall.getReportDoc] ∧
        (SpReportLib.retrieve_report (some rtn) none mkt (some rec) env).record =
          some rec ∧
        ∀ doc, env.docRes = .ok doc →
          (SpReportLib.retrieve_report (some rtn) none mkt (some rec) env).result =
            .ok (.DOCUMENTED_RETURNED, .document doc)) := by
  constructor
  · intro e day mkt env hs hp
    simp [AmazonLib.retrieve_orders, hs, hp]
  · intro rtn mkt rec env d hst hdoc
    have hw : rec.status ∉ WAITING_STATUS := by
      simp [WAITING_STATUS, hst]
    refine ⟨?_, ?_, ?_⟩ <;>
      · simp only [SpReportLib.retrieve_report, resolve_report_type_name]
        simp only [hw, if_false, hdoc]
        cases hd : env.docRes <;> simp [hd]

/-- C1 witness: the amended theorem applied to a concrete saved log entry
and a concrete tracker record with a recorded document. -/
theorem c1_amended_idempotence_witness :
    (("SAVED" : String) = "SAVED" ∧ ("_DONE_" : String) = "_DONE_" ∧
      AmazonLib.retrieve_orders
        (some ⟨"sd", some "rq", some "rp", "2021-01-01", "US", "_DONE_", "SAVED", none⟩)
        "2021-01-01" "US"
        { nowPst := "now", createRes := .error "u", pollRes := .error "u",
          fetchRes := .ok 3, saveRes := .ok () } =
        { result := .ok .ORDERS_ALREADY_SAVED,
          entry := some ⟨"sd", some "rq", some "rp", "2021-01-01", "US", "_DONE_", "SAVED", none⟩,
          calls := [], committed := [] }) ∧
    ((some "DONE" : Option String) = some "DONE" ∧
      (some "d1" : Option String) = some "d1" ∧
      (SpReportLib.retrieve_report (some "Inventory Report") none "US"
          (some { reportId := some "r1", errors := none,
                  status := some "DONE", documentId := some "d1" })
          { createRes := .error "x", pollRes := .error "x", docRes := .ok "pay" }).calls =
        [SpCall.getReportDoc]) :=
  ⟨⟨rfl, rfl,
      c1_amended_idempotence.1
        ⟨"sd", some "rq", some "rp", "2021-01-01", "US", "_DONE_", "SAVED", none⟩
        "2021-01-01" "US"
        { nowPst := "now", createRes := .error "u", pollRes := .error "u",
          fetchRes := .ok 3, saveRes := .ok () } rfl rfl⟩,
   ⟨rfl, rfl,
      (c1_amended_idempotence.2 "Inventory Report" "US"
        { reportId := some "r1", errors := none,
          status := some "DONE", documentId := some "d1" }
        { createRes := .error "x", pollRes := .error "x", docRes := .ok "pay" }
        "d1" rfl rfl).1⟩⟩

/-- C2 counterexample: on the `SpTabReportRetrieval` create path a failing
remote CREATE (`SellingApiException`) is recorded in the tracker, but the
exception is NOT propagated — `retrieve_report` returns
EXCEPTION_OCCURRED — and the next call for the same key does not attempt
CREATE again: the record now exists without a report id, so the call
raises RuntimeError after issuing zero remote calls (even though a new
CREATE would have succeeded in this environment). -/
theorem c2_counterexample :
    (SpReportLib.retrieve_report (some "FBA Manage Inventory") none "US" none
        { createRes := .error "boom", pollRes := .error "p", docRes := .error "d" }).result =
      .ok (.EXCEPTION_OCCURRED, .nothing) ∧
    (SpReportLib.retrieve_report (some "FBA Manage Inventory") none "US" none
        { createRes := .error "boom", pollRes := .error "p", docRes := .error "d" }).record =
      some { reportId := none, errors := some "boom", status := none, documentId := none } ∧
    (SpReportLib.retrieve_report (some "FBA Manage Inventory") none "US"
        (some { reportId := none, errors := some "boom", status := none, documentId := none })
        { createRes := .ok { reportId := "r2", errors := none },
          pollRes := .error "p", docRes := .error "d" }).result =
      .error (.runtimeError "Cannot retrieve status or document without a report ID") ∧
    (SpReportLib.retrieve_report (some "FBA Manage Inventory") none "US"
        (some { reportId := none, errors := some "boom", status := none, documentId := none })
        { createRes := .ok { reportId := "r2", errors := none },
          pollRes := .error "p", docRes := .error "d" }).calls = [] := by
  refine ⟨rfl, rfl, rfl, rfl⟩

/-- C2 (amended): for `AmazonOrderRetrieval.retrieve_orders` the claim
holds as stated: a failing remote CREATE logs a diagnostic entry
(processing "REQUEST_FAILED", saving "NOT_SAVED", no request or report
id, the error kind) before the exception propagates, and the next call
for the key attempts CREATE again.  For `SpTabReportRetrieval`, a
`SellingApiException` in CREATE is likewise recorded (a record with no
report id and a non-empty error text) but the method returns
EXCEPTION_OCCURRED instead of propagating, and the next call raises
RuntimeError without attempting any remote call, because the recorded
key now exists without a report id. -/
theorem c2_amended_create_failure :
    (∀ (day mkt : String) (env : RemoteEnv) (ex : String),
        env.createRes = .error ex →
        (AmazonLib.retrieve_orders none day mkt env).result = .error ex ∧
        (AmazonLib.retrieve_orders none day mkt env).entry =
          some { submitted_date := env.nowPst, request_id := none, report_id := none,
                 day := day, marketplace := mkt, processing_status := "REQUEST_FAILED",
                 saving_status := "NOT_SAVED", last_err_type := some ex } ∧
        (AmazonLib.retrieve_orders none day mkt env).calls = [RemoteCall.createReport] ∧
        ∀ env2, (AmazonLib.retrieve_orders (AmazonLib.retrieve_orders none day mkt env).entry
            day mkt env2).calls = [RemoteCall.createReport]) ∧
    (∀ (rtn mkt : String) (env : SpEnv) (msg : String),
        rtn ∈ TAB_REPORT_TYPE_NAMES →
        (mkt ∈ NA_MARKETPLACE_COUNTRY_CODESET ∨ mkt ∈ EUR_MARKETPLACE_COUNTRY_CODESET) →
        env.createRes = .error msg →
        (SpReportLib.retrieve_report (some rtn) none mkt none env).result =
          .ok (.EXCEPTION_OCCURRED, .nothing) ∧
        (SpReportLib.retrieve_report (some rtn) none mkt none env).record =
          some { reportId := none, errors := some msg, status := none, documentId := none } ∧
        ∀ env2,
          (SpReportLib.retrieve_report (some rtn) none mkt
              (SpReportLib.retrieve_report (some rtn) none mkt none env).record env2).result =
            .error (.runtimeError "Cannot retrieve status or document without a report ID") ∧
          (SpReportLib.retrieve_report (some rtn) none mkt
              (SpReportLib.retrieve_report (some rtn) none mkt none env).record env2).calls =
            []) := by
  constructor
  · intro day mkt env ex hc
    refine ⟨?_, ?_, ?_, ?_⟩
    · simp [AmazonLib.retrieve_orders, createBranch, hc]
    · simp [AmazonLib.retrieve_orders, createBranch, hc]
    · simp [AmazonLib.retrieve_orders, createBranch, hc]
    · intro env2
      simp only [AmazonLib.retrieve_orders, createBranch, hc]
      cases h2 : env2.createRes <;> simp [h2]
  · intro rtn mkt env msg hrtn hmkt hc
    have hnotboth : ¬ (rtn ∉ TAB_REPORT_TYPE_NAMES) := by simp [hrtn]
    have hm : ¬ (mkt ∉ NA_MARKETPLACE_COUNTRY_CODESET ∧ mkt ∉ EUR_MARKETPLACE_COUNTRY_CODESET) := by
      rcases hmkt with h | h <;> simp [h]
    refine ⟨?_, ?_, ?_⟩ <;>
      simp [SpReportLib.retrieve_report, resolve_report_type_name, create_report,
        update_report_status, WAITING_STATUS, hnotboth, hm, hc]

/-- C2 witness: the amended theorem applied to a concrete failing CREATE
environment for both implementations. -/
theorem c2_amended_create_failure_witness :
    (({ nowPst := "now", createRes := .error "boom", pollRes := .error "u",
        fetchRes := .ok 0, saveRes := .ok () } : RemoteEnv).createRes = .error "boom" ∧
      (AmazonLib.retrieve_orders none "2021-01-01" "US"
        { nowPst := "now", createRes := .error "boom", pollRes := .error "u",
          fetchRes := .ok 0, saveRes := .ok () }).result = .error "boom") ∧
    (("FBA Manage Inventory" : String) ∈ TAB_REPORT_TYPE_NAMES ∧
      ("US" : String) ∈ NA_MARKETPLACE_COUNTRY_CODESET ∧
      (SpReportLib.retrieve_report (some "FBA Manage Inventory") none "US" none
        { createRes := .error "boom", pollRes := .error "p", docRes := .error "d" }).record =
        some { reportId := none, errors := some "boom", status := none, documentId := none }) :=
  ⟨⟨rfl,
    (c2_amended_create_failure.1 "2021-01-01" "US"
      { nowPst := "now", createRes := .error "boom", pollRes := .error "u",
        fetchRes := .ok 0, saveRes := .ok () } "boom" rfl).1⟩,
   ⟨by decide, by decide,
    (c2_amended_create_failure.2 "FBA Manage Inventory" "US"
      { createRes := .error "boom", pollRes := .error "p", docRes := .error "d" }
      "boom" (by decide) (Or.inl (by decide)) rfl).2.1⟩⟩

/-- C3 counterexample: the claim asserts that a fetch yielding zero
records returns a distinct status from a non-empty save.  In the code
both outcomes return the same `SAVED_ORDERS` status: only the tracker
distinguishes them (saving status "EMPTY_SAVE" versus "SAVED"). -/
theorem c3_counterexample :
    (AmazonLib.retrieve_orders
        (some ⟨"sd", some "rq", some "rp", "2021-01-01", "US", "_DONE_", "NOT_SAVED", none⟩)
        "2021-01-01" "US"
        { nowPst := "now", createRes := .error "u", pollRes := .error "u",
          fetchRes := .ok 0, saveRes := .ok () }).result = .ok .SAVED_ORDERS ∧
    (AmazonLib.retrieve_orders
        (some ⟨"sd", some "rq", some "rp", "2021-01-01", "US", "_DONE_", "NOT_SAVED", none⟩)
        "2021-01-01" "US"
        { nowPst := "now", createRes := .error "u", pollRes := .error "u",
          fetchRes := .ok 3, saveRes := .ok () }).result = .ok .SAVED_ORDERS ∧
    (AmazonLib.retrieve_orders
        (some ⟨"sd", some "rq", some "rp", "2021-01-01", "US", "_DONE_", "NOT_SAVED", none⟩)
        "2021-01-01" "US"
        { nowPst := "now", createRes := .error "u", pollRes := .error "u",
          fetchRes := .ok 0, saveRes := .ok () }).entry =
      some ⟨"sd", some "rq", some "rp", "2021-01-01", "US", "_DONE_", "EMPTY_SAVE", none⟩ := by
  refine ⟨rfl, rfl, rfl⟩

/-- C3 (amended): when processing is done and the fetched artifact yields
zero records, `retrieve_orders` returns `SAVED_ORDERS` — the same
returned status as a non-empty save, there is no distinct empty status in
the return value — while the tracker entry records the distinct saving
state "EMPTY_SAVE", nothing is committed to the output sink, and a
subsequent call for the same key re-attempts FETCH only (no CREATE, no
POLL). -/
theorem c3_amended_empty_fetch :
    ∀ (e : AmazonReportLogEntry) (day mkt : String) (env : RemoteEnv),
      e.processing_status = "_DONE_" → e.saving_status ≠ "SAVED" →
      env.fetchRes = .ok 0 →
      (AmazonLib.retrieve_orders (some e) day mkt env).result = .ok .SAVED_ORDERS ∧
      (AmazonLib.retrieve_orders (some e) day mkt env).entry =
        some { e with saving_status := "EMPTY_SAVE", last_err_type := none } ∧
      (AmazonLib.retrieve_orders (some e) day mkt env).committed = [] ∧
      (AmazonLib.retrieve_orders (some e) day mkt env).calls = [RemoteCall.fetchReport] ∧
      ∀ env2, (AmazonLib.retrieve_orders
          (AmazonLib.retrieve_orders (some e) day mkt env).entry day mkt env2).calls =
        [RemoteCall.fetchReport] := by
  intro e day mkt env hp hs hf
  have hmain : AmazonLib.retrieve_orders (some e) day mkt env =
      { result := .ok .SAVED_ORDERS,
        entry := some { e with saving_status := "EMPTY_SAVE", last_err_type := none },
        calls := [RemoteCall.fetchReport], committed := [] } := by
    simp [AmazonLib.retrieve_orders, fetchBranch, hp, hs, hf]
  refine ⟨by rw [hmain], by rw [hmain], by rw [hmain], by rw [hmain], ?_⟩
  rw [hmain]
  intro env2
  cases h2 : env2.fetchRes with
  | error ex => simp [AmazonLib.retrieve_orders, fetchBranch, hp, h2]
  | ok n =>
      by_cases hn : n = 0
      · simp [AmazonLib.retrieve_orders, fetchBranch, hp, h2, hn]
      · cases h3 : env2.saveRes <;>
          simp [AmazonLib.retrieve_orders, fetchBranch, hp, h2, hn, h3]

/-- C3 witness: the amended theorem applied to a concrete done-but-unsaved
entry and an environment whose fetch yields zero records. -/
theorem c3_amended_empty_fetch_witness :
    (("_DONE_" : String) = "_DONE_" ∧ ("NOT_SAVED" : String) ≠ "SAVED" ∧
      ({ nowPst := "now", createRes := .error "u", pollRes := .error "u",
         fetchRes := .ok 0, saveRes := .ok () } : RemoteEnv).fetchRes = .ok 0) ∧
    (AmazonLib.retrieve_orders
        (some ⟨"sd", some "rq", some "rp", "2021-01-01", "US", "_DONE_", "NOT_SAVED", none⟩)
        "2021-01-01" "US"
        { nowPst := "now", createRes := .error "u", pollRes := .error "u",
          fetchRes := .ok 0, saveRes := .ok () }).committed = [] :=
  ⟨⟨rfl, by decide, rfl⟩,
    (c3_amended_empty_fetch
      ⟨"sd", some "rq", some "rp", "2021-01-01", "US", "_DONE_", "NOT_SAVED", none⟩
      "2021-01-01" "US"
      { nowPst := "now", createRes := .error "u", pollRes := .error "u",
        fetchRes := .ok 0, saveRes := .ok () } rfl (by decide) rfl).2.2.1⟩

/-- C4: a failing remote POLL preserves the previously known processing
state and records the error.  For `AmazonOrderRetrieval.retrieve_orders`
the exception propagates after the `finally` block logs the entry with
the old processing status and the error type; for
`SpTabReportRetrieval.__update_report_status` the handler re-writes the
status currently held by the tracker (unchanged, since the failing
GetReport never wrote a new one) together with the exception text and
returns EXCEPTION_OCCURRED, so the caller may retry. -/
theorem c4_poll_failure_preserves_state :
    (∀ (e : AmazonReportLogEntry) (day mkt : String) (env : RemoteEnv) (ex : String),
        e.processing_status ≠ "REQUEST_FAILED" → e.processing_status ≠ "_DONE_" →
        e.saving_status ≠ "SAVED" → env.pollRes = .error ex →
        (AmazonLib.retrieve_orders (some e) day mkt env).result = .error ex ∧
        (AmazonLib.retrieve_orders (some e) day mkt env).entry =
          some { e with last_err_type := some ex } ∧
        (AmazonLib.retrieve_orders (some e) day mkt env).calls = [RemoteCall.pollReport]) ∧
    (∀ (rtn mkt : String) (rec : SpRecord) (env : SpEnv) (msg rid : String),
        rec.status ∈ WAITING_STATUS → rec.reportId = some rid → rid ≠ "" →
        env.pollRes = .error msg →
        (SpReportLib.retrieve_report (some rtn) none mkt (some rec) env).result =
          .ok (.EXCEPTION_OCCURRED, .statusVal rec.status) ∧
        (SpReportLib.retrieve_report (some rtn) none mkt (some rec) env).record =
          some { rec with errors := some msg } ∧
        (SpReportLib.retrieve_report (some rtn) none mkt (some rec) env).calls =
          [SpCall.getReport]) := by
  constructor
  · intro e day mkt env ex h1 h2 h3 hpoll
    refine ⟨?_, ?_, ?_⟩ <;>
      simp [AmazonLib.retrieve_orders, h1, h2, h3, hpoll]
  · intro rtn mkt rec env msg rid hw hrid hne hpoll
    refine ⟨?_, ?_, ?_⟩ <;>
      simp [SpReportLib.retrieve_report, resolve_report_type_name,
        update_report_status, hw, hrid, hne, hpoll]

/-- C4 witness: the theorem applied to a concrete in-progress entry and
record whose POLL call fails. -/
theorem c4_poll_failure_preserves_state_witness :
    (("_SUBMITTED_" : String) ≠ "REQUEST_FAILED" ∧ ("_SUBMITTED_" : String) ≠ "_DONE_" ∧
      ("NOT_SAVED" : String) ≠ "SAVED" ∧
      (AmazonLib.retrieve_orders
          (some ⟨"sd", some "rq", none, "2021-01-01", "US", "_SUBMITTED_", "NOT_SAVED", none⟩)
          "2021-01-01" "US"
          { nowPst := "now", createRes := .error "u", pollRes := .error "PE",
            fetchRes := .ok 0, saveRes := .ok () }).entry =
        some ⟨"sd", some "rq", none, "2021-01-01", "US", "_SUBMITTED_", "NOT_SAVED", some "PE"⟩) ∧
    ((some "IN_QUEUE" : Option String) ∈ WAITING_STATUS ∧ ("r1" : String) ≠ "" ∧
      (SpReportLib.retrieve_report (some "Inventory Report") none "US"
          (some { reportId := some "r1", errors := none, status := some "IN_QUEUE", documentId := none })
          { createRes := .error "u", pollRes := .error "PE", docRes := .error "u" }).record =
        some { reportId := some "r1", errors := some "PE",
               status := some "IN_QUEUE", documentId := none }) :=
  ⟨⟨by decide, by decide, by decide,
    (c4_poll_failure_preserves_state.1
      ⟨"sd", some "rq", none, "2021-01-01", "US", "_SUBMITTED_", "NOT_SAVED", none⟩
      "2021-01-01" "US"
      { nowPst := "now", createRes := .error "u", pollRes := .error "PE",
        fetchRes := .ok 0, saveRes := .ok () } "PE"
      (by decide) (by decide) (by decide) rfl).2.1⟩,
   ⟨by decide, by decide,
    (c4_poll_failure_preserves_state.2 "Inventory Report" "US"
      { reportId := some "r1", errors := none, status := some "IN_QUEUE", documentId := none }
      { createRes := .error "u", pollRes := .error "PE", docRes := .error "u" }
      "PE" "r1" (by decide) rfl (by decide) rfl).2.1⟩⟩

/-- C5: when the FETCH or saving step raises, the logged entry keeps
processing status "_DONE_" (so a later call goes straight to FETCH, not
CREATE), sets saving status "SAVE_FAILED" with the error type recorded,
and nothing is committed to the output sink in that call (the single
`save_orders` call is all-or-nothing: on failure the committed batch
list is empty). -/
theorem c5_fetch_failure :
    ∀ (e : AmazonReportLogEntry) (day mkt : String) (env : RemoteEnv) (ex : String),
      e.processing_status = "_DONE_" → e.saving_status ≠ "SAVED" →
      (env.fetchRes = .error ex ∨
        (∃ n, env.fetchRes = .ok n ∧ n ≠ 0 ∧ env.saveRes = .error ex)) →
      (AmazonLib.retrieve_orders (some e) day mkt env).result = .error ex ∧
      (AmazonLib.retrieve_orders (some e) day mkt env).entry =
        some { e with saving_status := "SAVE_FAILED", last_err_type := some ex } ∧
      (AmazonLib.retrieve_orders (some e) day mkt env).committed = [] ∧
      ∀ env2, (AmazonLib.retrieve_orders
          (AmazonLib.retrieve_orders (some e) day mkt env).entry day mkt env2).calls =
        [RemoteCall.fetchReport] := by
  intro e day mkt env ex hp hs hdisj
  have hmain : AmazonLib.retrieve_orders (some e) day mkt env =
      { result := .error ex,
        entry := some { e with saving_status := "SAVE_FAILED", last_err_type := some ex },
        calls := [RemoteCall.fetchReport], committed := [] } := by
    rcases hdisj with hf | ⟨n, hf, hn, hsv⟩
    · simp [AmazonLib.retrieve_orders, fetchBranch, hp, hs, hf]
    · simp [AmazonLib.retrieve_orders, fetchBranch, hp, hs, hf, hn, hsv]
  refine ⟨by rw [hmain], by rw [hmain], by rw [hmain], ?_⟩
  rw [hmain]
  intro env2
  exact retrieve_orders_done_goes_to_fetch _ day mkt env2 hp (by simp)

/-- C5 witness: the theorem applied to a concrete done entry and an
environment whose GetReport call fails. -/
theorem c5_fetch_failure_witness :
    (("_DONE_" : String) = "_DONE_" ∧ ("NOT_SAVED" : String) ≠ "SAVED" ∧
      ({ nowPst := "now", createRes := .error "u", pollRes := .error "u",
         fetchRes := .error "FE", saveRes := .ok () } : RemoteEnv).fetchRes = .error "FE") ∧
    (AmazonLib.retrieve_orders
        (some ⟨"sd", some "rq", some "rp", "2021-01-01", "US", "_DONE_", "NOT_SAVED", none⟩)
        "2021-01-01" "US"
        { nowPst := "now", createRes := .error "u", pollRes := .error "u",
          fetchRes := .error "FE", saveRes := .ok () }).entry =
      some ⟨"sd", some "rq", some "rp", "2021-01-01", "US", "_DONE_", "SAVE_FAILED", some "FE"⟩ :=
  ⟨⟨rfl, by decide, rfl⟩,
    (c5_fetch_failure
      ⟨"sd", some "rq", some "rp", "2021-01-01", "US", "_DONE_", "NOT_SAVED", none⟩
      "2021-01-01" "US"
      { nowPst := "now", createRes := .error "u", pollRes := .error "u",
        fetchRes := .error "FE", saveRes := .ok () } "FE"
      rfl (by decide) (Or.inl rfl)).2.1⟩

/-- C6: every exit path of the retrieve entry points that modifies the
job record writes the updated record back before control returns.  For
`AmazonOrderRetrieval.retrieve_orders`, every propagated exception leaves
a logged entry carrying that error type (CREATE, POLL and FETCH failures
alike — the `finally` blocks run on the exception paths).  For
`SpTabReportRetrieval.retrieve_report`, a failing CREATE initializes the
tracker record with the exception text before returning, and a failing
POLL re-writes the record with the exception text before returning. -/
theorem c6_writeback_on_all_paths :
    (∀ (entry0 : Option AmazonReportLogEntry) (day mkt : String) (env : RemoteEnv) (ex : String),
        (AmazonLib.retrieve_orders entry0 day mkt env).result = .error ex →
        ∃ e1, (AmazonLib.retrieve_orders entry0 day mkt env).entry = some e1 ∧
          e1.last_err_type = some ex) ∧
    (∀ (rtn mkt : String) (env : SpEnv) (msg : String),
        rtn ∈ TAB_REPORT_TYPE_NAMES →
        (mkt ∈ NA_MARKETPLACE_COUNTRY_CODESET ∨ mkt ∈ EUR_MARKETPLACE_COUNTRY_CODESET) →
        env.createRes = .error msg →
        (SpReportLib.retrieve_report (some rtn) none mkt none env).record =
          some { reportId := none, errors := some msg, status := none, documentId := none }) ∧
    (∀ (rtn mkt : String) (rec : SpRecord) (env : SpEnv) (msg rid : String),
        rec.status ∈ WAITING_STATUS → rec.reportId = some rid → rid ≠ "" →
        env.pollRes = .error msg →
        (SpReportLib.retrieve_report (some rtn) none mkt (some rec) env).record =
          some { rec with errors := some msg }) := by
  refine ⟨?_, ?_, ?_⟩
  · intro entry0 day mkt env ex h
    cases entry0 with
    | none =>
        cases hc : env.createRes with
        | error e0 =>
            simp [AmazonLib.retrieve_orders, createBranch, hc] at h ⊢
            simp [h]
        | ok info => simp [AmazonLib.retrieve_orders, createBranch, hc] at h
    | some le =>
        by_cases h1 : le.processing_status = "REQUEST_FAILED"
        · cases hc : env.createRes with
          | error e0 =>
              simp [AmazonLib.retrieve_orders, createBranch, h1, hc] at h ⊢
              simp [h]
          | ok info => simp [AmazonLib.retrieve_orders, createBranch, h1, hc] at h
        · by_cases h2 : le.saving_status = "SAVED"
          · simp [AmazonLib.retrieve_orders, h1, h2] at h
          · by_cases h3 : le.processing_status = "_DONE_"
            · have hb : AmazonLib.retrieve_orders (some le) day mkt env =
                  fetchBranch { le with last_err_type := none } env [] := by
                simp [AmazonLib.retrieve_orders, h1, h2, h3]
              rw [hb] at h ⊢
              exact fetchBranch_error_records _ env [] ex h
            · cases hpl : env.pollRes with
              | error e0 =>
                  simp [AmazonLib.retrieve_orders, h1, h2, h3, hpl] at h ⊢
                  simp [h]
              | ok info =>
                  by_cases h4 : info.reportProcessingStatus = "_DONE_"
                  · have hb : AmazonLib.retrieve_orders (some le) day mkt env =
                        fetchBranch { le with processing_status := info.reportProcessingStatus,
                                              report_id := some info.generatedReportId,
                                              last_err_type := none }
                          env [RemoteCall.pollReport] := by
                      simp [AmazonLib.retrieve_orders, h1, h2, h3, hpl, h4]
                    rw [hb] at h ⊢
                    exact fetchBranch_error_records _ env [RemoteCall.pollReport] ex h
                  · simp [AmazonLib.retrieve_orders, h1, h2, h3, hpl, h4] at h
  · intro rtn mkt env msg hrtn hmkt hc
    have hnotboth : ¬ (rtn ∉ TAB_REPORT_TYPE_NAMES) := by simp [hrtn]
    have hm : ¬ (mkt ∉ NA_MARKETPLACE_COUNTRY_CODESET ∧ mkt ∉ EUR_MARKETPLACE_COUNTRY_CODESET) := by
      rcases hmkt with h | h <;> simp [h]
    simp [SpReportLib.retrieve_report, resolve_report_type_name, create_report,
      hnotboth, hm, hc]
  · intro rtn mkt rec env msg rid hw hrid hne hpoll
    simp [SpReportLib.retrieve_report, resolve_report_type_name,
      update_report_status, hw, hrid, hne, hpoll]

/-- C6 witness: the theorem applied to a concrete failing CREATE for both
implementations and a concrete failing POLL. -/
theorem c6_writeback_on_all_paths_witness :
    ((AmazonLib.retrieve_orders none "2021-01-01" "US"
        { nowPst := "now", createRes := .error "CE", pollRes := .error "u",
          fetchRes := .ok 0, saveRes := .ok () }).result = .error "CE" ∧
      ∃ e1, (AmazonLib.retrieve_orders none "2021-01-01" "US"
          { nowPst := "now", createRes := .error "CE", pollRes := .error "u",
            fetchRes := .ok 0, saveRes := .ok () }).entry = some e1 ∧
        e1.last_err_type = some "CE") ∧
    (("Sales Tax Report" : String) ∈ TAB_REPORT_TYPE_NAMES ∧
      (SpReportLib.retrieve_report (some "Sales Tax Report") none "CA" none
          { createRes := .error "CE2", pollRes := .error "u", docRes := .error "u" }).record =
        some { reportId := none, errors := some "CE2", status := none, documentId := none }) :=
  ⟨⟨rfl,
    c6_writeback_on_all_paths.1 none "2021-01-01" "US"
      { nowPst := "now", createRes := .error "CE", pollRes := .error "u",
        fetchRes := .ok 0, saveRes := .ok () } "CE" rfl⟩,
   ⟨by decide,
    c6_writeback_on_all_paths.2.1 "Sales Tax Report" "CA"
      { createRes := .error "CE2", pollRes := .error "u", docRes := .error "u" }
      "CE2" (by decide) (Or.inl (by decide)) rfl⟩⟩

/-- Helper: `waitStep` stores the pre-sleep entry timestamp into
`lastTime` on both branches. -/
theorem waitStep_lastTime (ms cd : Rat) (b : Int) (st : RateState) (c : Rat) :
    ((waitStep ms cd b st c).2).lastTime = c := by
  unfold waitStep
  by_cases h : st.left - 1 = 0 <;> simp [h]

/-- Helper: with a nonnegative cooldown, `waitStep` never sleeps a
negative amount. -/
theorem waitStep_sleep_nonneg (ms cd : Rat) (b : Int) (st : RateState) (c : Rat)
    (hcd : 0 ≤ cd) : 0 ≤ (waitStep ms cd b st c).1 := by
  unfold waitStep
  by_cases h3 : st.left - 1 = 0 <;> simp [h3] <;> split_ifs <;> linarith

/-- Helper: once a positive `lastTime` is recorded, the request issued by
the next `waitStep` call of the class cannot be earlier than
`lastTime + minSpacing`. -/
theorem waitStep_spacing (ms cd : Rat) (b : Int) (st : RateState) (c : Rat)
    (hcd : 0 ≤ cd) (hlast : 0 < st.lastTime) :
    st.lastTime + ms ≤ c + (waitStep ms cd b st c).1 := by
  unfold waitStep
  by_cases h3 : st.left - 1 = 0 <;> simp [h3, hlast] <;> split_ifs <;> linarith

/-- Helper: with a nonnegative burst pause, every `__make_request` call
blocks at least the full fixed pause before its request is issued. -/
theorem makeRequestStep_sleep_ge_pause (bs : Nat) (p bp : Rat) (c : Nat)
    (hbp : 0 ≤ bp) : p ≤ (makeRequestStep bs p bp c).1 := by
  unfold makeRequestStep
  by_cases h : c = bs <;> simp [h] <;> linarith

/-- Helper: `SpTabReportRetrieval.__wait` computes exactly the
specification algorithm when `now` is read as the single time sample the
code takes at entry. -/
theorem waitStep_eq_claimedLimiterStep (ms cd : Rat) (b : Int)
    (st : RateState) (now : Rat) :
    waitStep ms cd b st now = claimedLimiterStep ms cd b st now := by
  unfold waitStep claimedLimiterStep
  by_cases h1 : st.lastTime > 0 <;> by_cases h2 : now - st.lastTime < ms <;>
    simp [h1, h2]

/-- C7 counterexample: `SP_Orders_Retrieval.__make_request` does not
follow the claimed rate-limiting algorithm.  On the very first request
(fresh counter, orders-class constants pause = 0.2 s, burst pause = 30 s,
burst size 15) the claimed algorithm blocks for 0, while
`__make_request` unconditionally sleeps the fixed pause of 0.2 s — it
never measures elapsed time at all. -/
theorem c7_counterexample :
    (claimedLimiterStep (1/5) 30 15 bulkInitState 1).1 = 0 ∧
    (makeRequestStep 15 (1/5) 30 0).1 = 1/5 ∧
    ((1 : Rat)/5 ≠ 0) := by
  refine ⟨by norm_num [claimedLimiterStep, bulkInitState],
    by norm_num [makeRequestStep], by norm_num⟩

/-- C7 (amended): `SpTabReportRetrieval.__wait` follows the claimed
three-step algorithm exactly, for all three request classes with their
source constants, provided "now" is read as the single `time.time()`
sample the code takes at entry (the code records this pre-sleep
timestamp as `lastRequestTime`).  `SP_Orders_Retrieval.__make_request`
does not follow that algorithm: it sleeps the fixed pause before every
request — including the first, with no elapsed-time measurement — and it
pays the burst pause at the start of the request after the burst was
exhausted, resetting the counter then. -/
theorem c7_amended_limiter_algorithm :
    (∀ (ms cd : Rat) (b : Int) (st : RateState) (now : Rat),
        waitStep ms cd b st now = claimedLimiterStep ms cd b st now) ∧
    (∀ (st : SpBulkState) (curr : Rat),
        spWait .CREATE_REPORT st curr =
          ((claimedLimiterStep 60 60 15 st.reportCreate curr).1,
            { st with reportCreate := (claimedLimiterStep 60 60 15 st.reportCreate curr).2 }) ∧
        spWait .GET_REPORT st curr =
          ((claimedLimiterStep (1/2) 60 15 st.getReport curr).1,
            { st with getReport := (claimedLimiterStep (1/2) 60 15 st.getReport curr).2 }) ∧
        spWait .GET_REPORT_DOC st curr =
          ((claimedLimiterStep 60 60 15 st.getReportDoc curr).1,
            { st with getReportDoc := (claimedLimiterStep 60 60 15 st.getReportDoc curr).2 })) ∧
    (∀ (bs : Nat) (p bp : Rat) (c : Nat),
        makeRequestStep bs p bp c =
          ((if c = bs then bp else 0) + p, (if c = bs then 0 else c) + 1)) := by
  refine ⟨waitStep_eq_claimedLimiterStep, ?_, ?_⟩
  · intro st curr
    refine ⟨?_, ?_, ?_⟩ <;>
      simp [spWait, waitStep_eq_claimedLimiterStep]
  · intro bs p bp c
    by_cases h : c = bs <;> simp [makeRequestStep, h]

/-- C8 counterexample: with the CREATE-REPORT class constants
(minSpacing 60 s, cooldown 60 s, burstCapacity 15), a maximally eager
caller gets 26 requests issued inside the sliding window [1, 901) of
length 900 = burstCapacity * minSpacing — the claimed ceiling is 15.
The cause is that `__wait` records the pre-sleep timestamp, so pairs of
requests can issue back to back.  Moreover the request issued right
after the burst-exhausting one (the 16th, list index 15) issues at the
same instant 481 as the 15th: the cooldown delayed the exhausting
request itself, not the next one. -/
theorem c8_counterexample :
    (greedyWaitRun 60 60 15 bulkInitState 1 26).length = 26 ∧
    (greedyWaitRun 60 60 15 bulkInitState 1 26).all
      (fun t => decide (1 ≤ t ∧ t < 901)) = true ∧
    (greedyWaitRun 60 60 15 bulkInitState 1 26).getD 14 0 = 481 ∧
    (greedyWaitRun 60 60 15 bulkInitState 1 26).getD 15 0 = 481 := by
  refine ⟨?_, ?_, ?_, ?_⟩ <;> norm_num [greedyWaitRun, waitStep, bulkInitState]

/-- C8 (amended): the two implementations differ.
`SpTabReportRetrieval.__wait` guarantees only a two-apart spacing — for
any state and any serialized arrivals, the request issued by the third
of three consecutive `waitStep` calls of a class is at least
`minSpacing` after the request issued by the first (so at most
2 * burstCapacity requests fit in a window of
burstCapacity * minSpacing, not burstCapacity); and the call that
exhausts the burst sleeps at least the full cooldown before its own
request is issued, resetting the counter to `burstCapacity` — the
following request receives no extra delay.
`SP_Orders_Retrieval.__make_request` keeps the originally claimed
properties: every call blocks at least the full fixed pause before its
request, so for serialized arrivals consecutive requests are at least
`minSpacing` apart — at most `burstCapacity` requests fit in any
half-open window of length burstCapacity * minSpacing — and the first
request after the burst is exhausted (counter at the burst size) is
delayed by at least the burst pause, the counter restarting at 1. -/
theorem c8_amended_rate_ceiling :
    (∀ (ms cd : Rat) (b : Int) (st : RateState) (a1 a2 a3 : Rat),
        0 ≤ cd → 0 < a1 →
        a1 + (waitStep ms cd b st a1).1 ≤ a2 →
        a1 + (waitStep ms cd b st a1).1 + ms ≤
          a3 + (waitStep ms cd b (waitStep ms cd b (waitStep ms cd b st a1).2 a2).2 a3).1) ∧
    (∀ (ms cd : Rat) (b : Int) (st : RateState) (now : Rat),
        st.left = 1 →
        cd ≤ (waitStep ms cd b st now).1 ∧
        ((waitStep ms cd b st now).2).left = b) ∧
    (∀ (bs : Nat) (p bp : Rat) (c : Nat) (a1 a2 : Rat),
        0 ≤ bp →
        a1 + (makeRequestStep bs p bp c).1 ≤ a2 →
        a1 + (makeRequestStep bs p bp c).1 + p ≤
          a2 + (makeRequestStep bs p bp (makeRequestStep bs p bp c).2).1) ∧
    (∀ (bs : Nat) (p bp : Rat),
        0 ≤ p →
        bp ≤ (makeRequestStep bs p bp bs).1 ∧
        (makeRequestStep bs p bp bs).2 = 1) := by
  refine ⟨?_, ?_, ?_, ?_⟩
  · intro ms cd b st a1 a2 a3 hcd ha1 h12
    have hs1 : 0 ≤ (waitStep ms cd b st a1).1 :=
      waitStep_sleep_nonneg ms cd b st a1 hcd
    have hlt3 : ((waitStep ms cd b (waitStep ms cd b st a1).2 a2).2).lastTime = a2 :=
      waitStep_lastTime ms cd b _ a2
    have hsp : ((waitStep ms cd b (waitStep ms cd b st a1).2 a2).2).lastTime + ms ≤
        a3 + (waitStep ms cd b (waitStep ms cd b (waitStep ms cd b st a1).2 a2).2 a3).1 := by
      refine waitStep_spacing ms cd b _ a3 hcd ?_
      rw [hlt3]
      linarith
    rw [hlt3] at hsp
    linarith
  · intro ms cd b st now hleft
    have h0 : st.left - 1 = 0 := by omega
    constructor
    · unfold waitStep
      simp [h0]
      split_ifs <;> linarith
    · unfold waitStep
      simp [h0]
  · intro bs p bp c a1 a2 hbp h12
    have hs2 : p ≤ (makeRequestStep bs p bp (makeRequestStep bs p bp c).2).1 :=
      makeRequestStep_sleep_ge_pause bs p bp _ hbp
    linarith
  · intro bs p bp hp
    constructor
    · unfold makeRequestStep
      simp
      linarith
    · unfold makeRequestStep
      simp

/-- C8 witness: the amended theorem applied to concrete CREATE-class
constants, a fresh bulk state and the serialized arrival times 1, 61,
61; to a one-left state about to exhaust its burst; and to the
orders-class constants of `__make_request` (pause 0.2 s, burst pause
30 s, burst size 15) at serialized arrival times 1, 2 and at an
exhausted counter. -/
theorem c8_amended_rate_ceiling_witness :
    ((0:Rat) ≤ 60 ∧ (0:Rat) < 1 ∧
      1 + (waitStep 60 60 15 bulkInitState 1).1 ≤ 61 ∧
      1 + (waitStep 60 60 15 bulkInitState 1).1 + 60 ≤
        61 + (waitStep 60 60 15
          (waitStep 60 60 15 (waitStep 60 60 15 bulkInitState 1).2 61).2 61).1) ∧
    (({ left := 1, lastTime := 5 } : RateState).left = 1 ∧
      (60:Rat) ≤ (waitStep 60 60 15 { left := 1, lastTime := 5 } 10).1 ∧
      ((waitStep 60 60 15 { left := 1, lastTime := 5 } 10).2).left = 15) ∧
    ((0:Rat) ≤ 30 ∧
      1 + (makeRequestStep 15 (1/5) 30 0).1 ≤ 2 ∧
      1 + (makeRequestStep 15 (1/5) 30 0).1 + 1/5 ≤
        2 + (makeRequestStep 15 (1/5) 30 (makeRequestStep 15 (1/5) 30 0).2).1) ∧
    ((0:Rat) ≤ 1/5 ∧
      (30:Rat) ≤ (makeRequestStep 15 (1/5) 30 15).1 ∧
      (makeRequestStep 15 (1/5) 30 15).2 = 1) :=
  ⟨⟨by norm_num, by norm_num, by norm_num [waitStep, bulkInitState],
      c8_amended_rate_ceiling.1 60 60 15 bulkInitState 1 61 61
        (by norm_num) (by norm_num) (by norm_num [waitStep, bulkInitState])⟩,
   ⟨rfl,
      (c8_amended_rate_ceiling.2.1 60 60 15 { left := 1, lastTime := 5 } 10 rfl).1,
      (c8_amended_rate_ceiling.2.1 60 60 15 { left := 1, lastTime := 5 } 10 rfl).2⟩,
   ⟨by norm_num, by norm_num [makeRequestStep],
      c8_amended_rate_ceiling.2.2.1 15 (1/5) 30 0 1 2
        (by norm_num) (by norm_num [makeRequestStep])⟩,
   ⟨by norm_num,
      (c8_amended_rate_ceiling.2.2.2 15 (1/5) 30 (by norm_num)).1,
      (c8_amended_rate_ceiling.2.2.2 15 (1/5) 30 (by norm_num)).2⟩⟩

/-- C9 counterexample: the saving state can move DOWN in the claimed
order.  From an entry recorded as "EMPTY_SAVE" (tier 1 in the claimed
order, alongside "SAVED"), a retrieve call whose re-fetch fails records
"SAVE_FAILED" (tier 0) — so the recorded sequence of saving states is
not non-decreasing in the claimed order. -/
theorem c9_counterexample :
    (AmazonLib.retrieve_orders
        (some ⟨"sd", some "rq", some "rp", "2021-01-01", "US", "_DONE_", "EMPTY_SAVE", none⟩)
        "2021-01-01" "US"
        { nowPst := "now", createRes := .error "u", pollRes := .error "u",
          fetchRes := .error "E", saveRes := .ok () }).entry =
      some ⟨"sd", some "rq", some "rp", "2021-01-01", "US", "_DONE_", "SAVE_FAILED", some "E"⟩ ∧
    claimedSavingTier "SAVE_FAILED" < claimedSavingTier "EMPTY_SAVE" := by
  refine ⟨rfl, by decide⟩

/-- C9 (amended): "SAVED" is the only terminal saving state: once an
entry holds saving "SAVED" (with processing "_DONE_", the state every
SAVED-producing call leaves), every later call returns
ORDERS_ALREADY_SAVED, changes nothing and issues no remote call.  The
saving state always stays within the four protocol values — a fresh
CREATE records "NOT_SAVED", and every transition from a protocol state
lands in a protocol state — but "EMPTY_SAVE" is not above "SAVE_FAILED":
a failed re-fetch moves "EMPTY_SAVE" back to "SAVE_FAILED". -/
theorem c9_amended_monotonic :
    (∀ (e : AmazonReportLogEntry) (day mkt : String) (env : RemoteEnv),
        e.saving_status = "SAVED" → e.processing_status = "_DONE_" →
        AmazonLib.retrieve_orders (some e) day mkt env =
          { result := .ok .ORDERS_ALREADY_SAVED, entry := some e,
            calls := [], committed := [] }) ∧
    (∀ (day mkt : String) (env : RemoteEnv) (e1 : AmazonReportLogEntry),
        (AmazonLib.retrieve_orders none day mkt env).entry = some e1 →
        e1.saving_status = "NOT_SAVED") ∧
    (∀ (e : AmazonReportLogEntry) (day mkt : String) (env : RemoteEnv)
        (e1 : AmazonReportLogEntry),
        e.saving_status ∈ (["NOT_SAVED", "SAVE_FAILED", "EMPTY_SAVE", "SAVED"] : List String) →
        (AmazonLib.retrieve_orders (some e) day mkt env).entry = some e1 →
        e1.saving_status ∈ (["NOT_SAVED", "SAVE_FAILED", "EMPTY_SAVE", "SAVED"] : List String)) := by
  refine ⟨?_, ?_, ?_⟩
  · intro e day mkt env hs hp
    simp [AmazonLib.retrieve_orders, hs, hp]
  · intro day mkt env e1 h
    cases hc : env.createRes <;>
      · simp [AmazonLib.retrieve_orders, createBranch, hc] at h
        simp [← h]
  · intro e day mkt env e1 hmem h
    by_cases h1 : e.processing_status = "REQUEST_FAILED"
    · cases hc : env.createRes <;>
        · simp [AmazonLib.retrieve_orders, createBranch, h1, hc] at h
          simp [← h]
    · by_cases h2 : e.saving_status = "SAVED"
      · simp [AmazonLib.retrieve_orders, h1, h2] at h
        simp [← h, h2]
      · have hfetch : ∀ (e2 : AmazonReportLogEntry) (pc : List RemoteCall),
            e2.saving_status ∈ (["NOT_SAVED", "SAVE_FAILED", "EMPTY_SAVE", "SAVED"] : List String) →
            (fetchBranch e2 env pc).entry = some e1 →
            e1.saving_status ∈ (["NOT_SAVED", "SAVE_FAILED", "EMPTY_SAVE", "SAVED"] : List String) := by
          intro e2 pc hm2 h2'
          cases hf : env.fetchRes with
          | error e0 =>
              simp [fetchBranch, hf] at h2'
              simp [← h2']
          | ok n =>
              by_cases hn : n = 0
              · simp [fetchBranch, hf, hn] at h2'
                simp [← h2']
              · cases hsv : env.saveRes with
                | ok u =>
                    simp [fetchBranch, hf, hn, hsv] at h2'
                    simp [← h2']
                | error e0 =>
                    simp [fetchBranch, hf, hn, hsv] at h2'
                    simp [← h2']
        by_cases h3 : e.processing_status = "_DONE_"
        · have hb : AmazonLib.retrieve_orders (some e) day mkt env =
              fetchBranch { e with last_err_type := none } env [] := by
            simp [AmazonLib.retrieve_orders, h1, h2, h3]
          rw [hb] at h
          exact hfetch _ [] (by simpa using hmem) h
        · cases hpl : env.pollRes with
          | error e0 =>
              simp [AmazonLib.retrieve_orders, h1, h2, h3, hpl] at h
              simp [← h]
              simpa using hmem
          | ok info =>
              by_cases h4 : info.reportProcessingStatus = "_DONE_"
              · have hb : AmazonLib.retrieve_orders (some e) day mkt env =
                    fetchBranch { e with processing_status := info.reportProcessingStatus,
                                         report_id := some info.generatedReportId,
                                         last_err_type := none }
                      env [RemoteCall.pollReport] := by
                  simp [AmazonLib.retrieve_orders, h1, h2, h3, hpl, h4]
                rw [hb] at h
                exact hfetch _ [RemoteCall.pollReport] (by simpa using hmem) h
              · simp [AmazonLib.retrieve_orders, h1, h2, h3, hpl, h4] at h
                simp [← h]
                simpa using hmem

/-- C9 witness: the amended theorem applied to a concrete saved entry, a
concrete successful CREATE from an empty tracker, and a concrete
transition out of "EMPTY_SAVE". -/
theorem c9_amended_monotonic_witness :
    (("SAVED" : String) = "SAVED" ∧ ("_DONE_" : String) = "_DONE_" ∧
      (AmazonLib.retrieve_orders
          (some ⟨"sd", some "rq", some "rp", "2021-01-01", "US", "_DONE_", "SAVED", none⟩)
          "2021-01-01" "US"
          { nowPst := "now", createRes := .error "u", pollRes := .error "u",
            fetchRes := .ok 3, saveRes := .ok () }).calls = []) ∧
    (("EMPTY_SAVE" : String) ∈ (["NOT_SAVED", "SAVE_FAILED", "EMPTY_SAVE", "SAVED"] : List String) ∧
      ("SAVE_FAILED" : String) ∈ (["NOT_SAVED", "SAVE_FAILED", "EMPTY_SAVE", "SAVED"] : List String)) :=
  ⟨⟨rfl, rfl, by
      rw [c9_amended_monotonic.1
        ⟨"sd", some "rq", some "rp", "2021-01-01", "US", "_DONE_", "SAVED", none⟩
        "2021-01-01" "US"
        { nowPst := "now", createRes := .error "u", pollRes := .error "u",
          fetchRes := .ok 3, saveRes := .ok () } rfl rfl]⟩,
   ⟨by decide,
    c9_amended_monotonic.2.2
      ⟨"sd", some "rq", some "rp", "2021-01-01", "US", "_DONE_", "EMPTY_SAVE", none⟩
      "2021-01-01" "US"
      { nowPst := "now", createRes := .error "u", pollRes := .error "u",
        fetchRes := .error "E", saveRes := .ok () }
      ⟨"sd", some "rq", some "rp", "2021-01-01", "US", "_DONE_", "SAVE_FAILED", some "E"⟩
      (by decide) rfl⟩⟩

/-- C10: `SpTabReportRetrieval.__init__` validates
`report_type_name not in TAB_REPORT_TYPES`, and `None` — the default of
the parameter — is never a key of that dictionary, so construction with
`report_type_name` absent or `None` raises ValueError; every
successfully constructed instance therefore stores a valid tab report
type name, and with the stored name present the report-type-name
resolution in `retrieve_report` always succeeds — its RuntimeError
branch for the both-None case is unreachable from a constructed
instance. -/
theorem c10_init_validation :
    (sp_tab_report_retrieval_init none =
      .error (.valueError "Invalid Tab report type name None")) ∧
    (∀ (n s : String), sp_tab_report_retrieval_init (some n) = .ok s →
        s = n ∧ n ∈ TAB_REPORT_TYPE_NAMES) ∧
    (∀ (s : String) (perCall : Option String),
        resolve_report_type_name perCall (some s) = .ok (perCall.getD s)) := by
  refine ⟨rfl, ?_, ?_⟩
  · intro n s h
    by_cases hn : n ∈ TAB_REPORT_TYPE_NAMES
    · simp [sp_tab_report_retrieval_init, hn] at h
      exact ⟨h.symm, hn⟩
    · simp [sp_tab_report_retrieval_init, hn] at h
  · intro s perCall
    cases perCall <;> rfl

/-- C10 witness: the theorem applied to a concrete valid report type
name. -/
theorem c10_init_validation_witness :
    sp_tab_report_retrieval_init (some "Inventory Report") = .ok "Inventory Report" ∧
    ("Inventory Report" : String) = "Inventory Report" ∧
    ("Inventory Report" : String) ∈ TAB_REPORT_TYPE_NAMES :=
  ⟨by decide,
   (c10_init_validation.2.1 "Inventory Report" "Inventory Report" (by decide)).1,
   (c10_init_validation.2.1 "Inventory Report" "Inventory Report" (by decide)).2⟩
